import Mathlib

/-!
Verification development for the `themoviedatabaseapi` repository, a thin
Python client for The Movie Database REST API.

The source is shallowly embedded: JSON values become the inductive `JVal`,
a parsed JSON object (Python `dict`) becomes an association list
`Dict := List (String × JVal)`, raising Python code becomes `Except String`
or `Option` results (where `none` / `.error` model an uncaught exception),
and the HTTP layer becomes an explicit function parameter from the request
(page number, URL) to the server's response.  Definitions mirror the
functions of `tmdbapi.py` and `entities.py` and keep their names.
-/

/-- A JSON value as returned by the remote API. -/
inductive JVal where
  | jnull
  | jstr (s : String)
  | jint (n : Int)
  | jlist (xs : List JVal)
  | jobj (fields : List (String × JVal))

/-- A parsed JSON object (a Python `dict` with string keys), the wrapped
mapping every entity holds. -/
abbrev Dict := List (String × JVal)

/-- Embeds `Entity._get_value`:
`return self._results[key] if key in self._results else None`.
Note the source never uses its `default` parameter: the function returns
Python `None` (here `none`) whenever the key is absent, whatever default
the caller supplied. -/
def Entity.get_value (results : Dict) (key : String) (dflt : Option JVal) : Option JVal :=
  if (results.lookup key).isSome then results.lookup key else none

/-- Embeds `Entity.name`: `self._get_value('name', '')` (the `''` default is
passed by the source but ignored by `_get_value`). -/
def Entity.name (results : Dict) : Option JVal :=
  Entity.get_value results "name" (some (JVal.jstr ""))

/-- Embeds Python `int(x)` on a JSON value: an integer stays itself, a
numeric string parses, anything else (including `None`) raises. -/
def pyIntOf : Option JVal → Option Int
  | some (JVal.jint n) => some n
  | some (JVal.jstr s) => s.toInt?
  | _ => none

/-- Embeds `TvShow.tot_seasons`:
`return int(self._get_value('number_of_seasons'))`.
When the key is absent `_get_value` yields `None` and `int(None)` raises,
modelled as `.error`. -/
def TvShow.tot_seasons (results : Dict) : Except String Int :=
  match pyIntOf (Entity.get_value results "number_of_seasons" none) with
  | some n => Except.ok n
  | none => Except.error "TypeError: int() argument cannot be NoneType"

/-- Embeds `DailyTvPrograms.total_results`:
`return int(self._results['total_results']) or 0`.
Direct subscription raises `KeyError` when the key is absent.  (`x or 0`
returns `x` for nonzero `x` and `0` for `x = 0`, i.e. the same integer.) -/
def DailyTvPrograms.total_results (results : Dict) : Except String Int :=
  match results.lookup "total_results" with
  | none => Except.error "KeyError: total_results"
  | some v =>
    match pyIntOf (some v) with
    | some n => Except.ok n
    | none => Except.error "TypeError: int() argument"

/-- Embeds the `Gender` enumeration of `entities.py`. -/
inductive Gender where
  | male
  | female
  | undefined
  | unknown
deriving DecidableEq

/-- Embeds `Gender.parse` restricted to integers (the source first applies
`int(value)`): 1 ↦ female, 2 ↦ male, 0 ↦ undefined, all else ↦ unknown. -/
def Gender.parse (value : Int) : Gender :=
  if value = 1 then Gender.female
  else if value = 2 then Gender.male
  else if value = 0 then Gender.undefined
  else Gender.unknown

/-- Embeds the `Media` enumeration of `tmdbapi.py`. -/
inductive Media where
  | unknown
  | movie
  | tv
deriving DecidableEq

/-- Embeds `MOVIE_SESSION_SYNONYM = 'movie film cinema picture'`. -/
def MOVIE_SESSION_SYNONYM : String := "movie film cinema picture"

/-- Embeds `TVSERIES_SESSION_SYNONYM = 'tv television t.v. tube tele series show'`. -/
def TVSERIES_SESSION_SYNONYM : String := "tv television t.v. tube tele series show"

/-- Whether the first list is an initial segment of the second. -/
def startsWithChars : List Char → List Char → Bool
  | [], _ => true
  | _ :: _, [] => false
  | a :: as, b :: bs => a = b && startsWithChars as bs

/-- Whether `needle` occurs contiguously inside `hay`. -/
def occursIn (needle : List Char) : List Char → Bool
  | [] => startsWithChars needle []
  | hay@(_ :: rest) => startsWithChars needle hay || occursIn needle rest

/-- Embeds the Python substring test `needle in hay` on strings. -/
def strContains (hay needle : String) : Bool :=
  occursIn needle.toList hay.toList

/-- ASCII lowering of one character, as `str.lower()` acts on the ASCII
inputs this client handles. -/
def lowerChar (c : Char) : Char :=
  if 65 ≤ c.toNat ∧ c.toNat ≤ 90 then Char.ofNat (c.toNat + 32) else c

/-- Embeds Python `s.lower()` (ASCII range). -/
def pyLower (s : String) : String :=
  String.mk (s.toList.map lowerChar)

/-- Embeds `_parse_media`: `value.lower() in MOVIE_SESSION_SYNONYM` is a
case-insensitive substring test against the joined synonym string, movie
checked before tv, no match giving `unknown`. -/
def tmdb_parse_media (value : String) : Media :=
  if strContains MOVIE_SESSION_SYNONYM (pyLower value) then Media.movie
  else if strContains TVSERIES_SESSION_SYNONYM (pyLower value) then Media.tv
  else Media.unknown

/-- Embeds the state of `TmDBSession.__init__`: api key, language
(`language or 'en-US'`, so `None` and the empty string both default), and
the media affinity fixed by the subclass constructor. -/
structure TmDBSession where
  api_key : String
  lang : String
  media : Media
deriving DecidableEq

/-- Embeds `language or 'en-US'`: Python falsy values (`None`, `""`)
default to `"en-US"`. -/
def defaultLang (language : Option String) : String :=
  match language with
  | some s => if s = "" then "en-US" else s
  | none => "en-US"

/-- Embeds the `TmDBMovieSession` constructor (media fixed to movie). -/
def TmDBMovieSession.make (api_key : String) (language : Option String) : TmDBSession :=
  { api_key := api_key, lang := defaultLang language, media := Media.movie }

/-- Embeds the `TmDBTvSession` constructor (media fixed to tv). -/
def TmDBTvSession.make (api_key : String) (language : Option String) : TmDBSession :=
  { api_key := api_key, lang := defaultLang language, media := Media.tv }

/-- Embeds `session_factory`: classify `media_type.lower()`, return the
matching session subtype, raise `TmDBSessionException` otherwise
(modelled as `.error` carrying the exception message). -/
def session_factory (media_type : String) (apy_key : String)
    (lang : Option String) : Except String TmDBSession :=
  if tmdb_parse_media (pyLower media_type) = Media.movie then
    Except.ok (TmDBMovieSession.make apy_key lang)
  else if tmdb_parse_media (pyLower media_type) = Media.tv then
    Except.ok (TmDBTvSession.make apy_key lang)
  else
    Except.error ("media " ++ media_type ++ " unknown")

/-- The character `{` (written by code point to keep string literals plain). -/
def lcur : Char := Char.ofNat 123

/-- The character `}` (written by code point). -/
def rcur : Char := Char.ofNat 125

/-- Embeds the `API_ENDPOINTS` dict of `tmdbapi.py` (templates hold the
placeholder pair `{}` written via `\x7b\x7d`). -/
def API_ENDPOINTS : List (String × String) :=
  [("root", "https://api.themoviedb.org/3"),
   ("config", "/configuration"),
   ("new_session", "/authentication/session/new"),
   ("find", "/search/\x7b\x7d"),
   ("genres", "/genre/\x7b\x7d/list"),
   ("person", "/person/\x7b\x7d"),
   ("item", "/\x7b\x7d/\x7b\x7d"),
   ("episode", "/tv/\x7b\x7d/season/\x7b\x7d/episode/\x7b\x7d"),
   ("season", "/tv/\x7b\x7d/season/\x7b\x7d"),
   ("airing_today", "/tv/airing_today")]

/-- The `params` argument of `get_endpoint`: either a single non-tuple
value or a tuple of values (values already rendered to the text
`str.format` would splice in). -/
inductive PyParams where
  | single (v : String)
  | tuple (vs : List String)

/-- Embeds Python `template.format(*args)` with positional `\x7b\x7d`
placeholders: each placeholder consumes the next argument in order,
missing arguments raise `IndexError` and stray braces raise, both
modelled as `none`; surplus arguments are ignored. -/
def pyFormat : List Char → List String → Option (List Char)
  | [], _ => some []
  | c :: cs, args =>
    if c = lcur then
      match cs, args with
      | c2 :: cs2, a :: rest =>
        if c2 = rcur then (pyFormat cs2 rest).map (fun t => a.toList ++ t) else none
      | _ :: _, [] => none
      | [], _ => none
    else if c = rcur then none
    else (pyFormat cs args).map (fun t => c :: t)

/-- Embeds `get_endpoint`: unknown action returns `None` (`.ok none`), a
non-tuple `params` is wrapped into a one-element tuple, and the template
is positionally formatted and prefixed with the `root` entry.  A format
fault (placeholder without argument) raises, modelled as `.error`. -/
def get_endpoint (action : String) (params : PyParams) : Except String (Option String) :=
  match API_ENDPOINTS.lookup action with
  | none => Except.ok none
  | some tpl =>
    let vs := match params with
      | PyParams.single v => [v]
      | PyParams.tuple vs => vs
    match pyFormat tpl.toList vs with
    | some cs =>
      Except.ok (some (((API_ENDPOINTS.lookup "root").getD "") ++ String.mk cs))
    | none => Except.error "IndexError: Replacement index out of range"

/-- Embeds `TmdbImageSizes.original`. -/
def TmdbImageSizes.original : String := "original"

/-- Embeds the `PosterTmdbImageSizes` class constants. -/
def PosterTmdbImageSizes.sizes : List String :=
  ["w92", "w154", "w185", "w342", "w500", "w780"]

/-- Embeds the `Configuration` object.  `__init__` leaves the base URLs as
`None` and every list empty; `getconfig` is meant to fill the fields from
the configuration response (string-typed here, matching the API schema the
claims describe). -/
structure Configuration where
  img_base_url : Option String := none
  img_secure_base_url : Option String := none
  img_backdrop_sizes : List String := []
  img_logo_sizes : List String := []
  img_poster_sizes : List String := []
  img_profile_sizes : List String := []
  img_still_sizes : List String := []
  change_keys : List String := []
deriving DecidableEq

/-- Renders an optional string the way a Python f-string renders the
value: `None` prints as `"None"`. -/
def pyStrOpt : Option String → String
  | some s => s
  | none => "None"

/-- Embeds the URL construction of `_get_image`:
`f'{secure_base or base}{size}/{img_name}'` — the supplied size token is
spliced in verbatim. -/
def get_image_url (conf : Configuration) (img_name : String) (size : String)
    (secure : Bool) : String :=
  pyStrOpt (if secure then conf.img_secure_base_url else conf.img_base_url)
    ++ size ++ "/" ++ img_name

/-- A size-token validator written from the spec's words (not from the
source, which the theorems compare it against): a requested size not in
the configuration's size list for the asset class — or no request at
all — is replaced by the sentinel `"original"`; a listed size is kept. -/
def spec_effective_size (sizes : List String) (requested : Option String) : String :=
  match requested with
  | some s => if s ∈ sizes then s else "original"
  | none => "original"

/-- Embeds `Configuration.getconfig` of `src/tmdbapi/tmdbapi.py`.  The
source assigns `resp = get_endpoint(route, payload)` — the URL *builder*,
not an HTTP call — where `route` is the already-built configuration URL.
That string is not an `API_ENDPOINTS` key, so `resp` is `None` and the
following `resp['status']` subscription raises `TypeError`.  The session's
payload (a dict, hence a non-tuple single value for `get_endpoint`) is
rendered here as a placeholder string; it is never consulted because the
key lookup fails first. -/
def Configuration.getconfig (session : TmDBSession) : Except String Configuration :=
  match get_endpoint "config" (PyParams.single "None") with
  | Except.ok (some route) =>
    match get_endpoint route (PyParams.single (session.api_key ++ session.lang)) with
    | Except.ok none => Except.error "TypeError: NoneType object is not subscriptable"
    | Except.ok (some _) => Except.error "TypeError: string indices must be integers"
    | Except.error e => Except.error e
  | Except.ok none => Except.error "TypeError: NoneType object is not subscriptable"
  | Except.error e => Except.error e

/-- Subscription `v[k]` on a JSON value: a key lookup on an object,
`KeyError` when absent, `TypeError` on a non-object. -/
def jGet (v : JVal) (k : String) : Except String JVal :=
  match v with
  | JVal.jobj fields =>
    match fields.lookup k with
    | some x => Except.ok x
    | none => Except.error ("KeyError: " ++ k)
  | _ => Except.error "TypeError: value is not subscriptable"

/-- Reads a JSON string, faulting on any other shape. -/
def jAsStr (v : JVal) : Except String String :=
  match v with
  | JVal.jstr s => Except.ok s
  | _ => Except.error "shape fault: expected a string"

/-- Reads a JSON list of strings, faulting on any other shape. -/
def jAsStrList (v : JVal) : Except String (List String) :=
  match v with
  | JVal.jlist xs => xs.mapM jAsStr
  | _ => Except.error "shape fault: expected a list of strings"

/-- Embeds `Configuration.getconfig` of `src/tmdbRest/tmdbapi.py`, which
issues the HTTP GET and populates every field from the response's nested
`images` object and `change_keys` list.  The response body is the
explicit argument. -/
def Configuration.getconfig_rest (resp : JVal) : Except String Configuration := do
  let images ← jGet resp "images"
  let base ← jAsStr (← jGet images "base_url")
  let secure_base ← jAsStr (← jGet images "secure_base_url")
  let backdrop ← jAsStrList (← jGet images "backdrop_sizes")
  let logo ← jAsStrList (← jGet images "logo_sizes")
  let poster ← jAsStrList (← jGet images "poster_sizes")
  let profile ← jAsStrList (← jGet images "profile_sizes")
  let still ← jAsStrList (← jGet images "still_sizes")
  let keys ← jAsStrList (← jGet resp "change_keys")
  pure { img_base_url := some base, img_secure_base_url := some secure_base,
         img_backdrop_sizes := backdrop, img_logo_sizes := logo,
         img_poster_sizes := poster, img_profile_sizes := profile,
         img_still_sizes := still, change_keys := keys }

/-- The local filesystem, modelled as a shadowing association list from
path to byte content (a later write for the same path shadows, i.e.
overwrites, an earlier one). -/
abbrev FS := List (String × List Nat)

/-- Creating or overwriting one file. -/
def FS.write (fs : FS) (path : String) (content : List Nat) : FS :=
  (path, content) :: fs

/-- Reading one file (most recent write wins). -/
def FS.read (fs : FS) (path : String) : Option (List Nat) :=
  fs.lookup path

/-- Embeds `os.path.join(a, b)` for POSIX paths as used by `_get_image`:
an absolute second component wins, a trailing separator is not doubled. -/
def os_path_join (a b : String) : String :=
  if b.toList.head? = some '/' then b
  else if a = "" then b
  else if a.toList.getLast? = some '/' then a ++ b
  else a ++ "/" ++ b

/-- Splits a byte stream into chunks of at most `n` bytes, as
`response.iter_content(n)` yields them; `fuel` bounds the recursion by the
stream length. -/
def iterContentAux (n : Nat) : Nat → List Nat → List (List Nat)
  | 0, _ => []
  | _, [] => []
  | fuel + 1, x :: xs => ((x :: xs).take n) :: iterContentAux n fuel ((x :: xs).drop n)

/-- Models `response.iter_content(n)`: the whole body cut into `n`-byte
chunks. -/
def iterContent (n : Nat) (body : List Nat) : List (List Nat) :=
  iterContentAux n body.length body

/-- The file-write loop of `_get_image`: each chunk is appended to the
(initially empty, since the file is opened with `'wb'`) file content. -/
def writeChunks (acc : List Nat) : List (List Nat) → List Nat
  | [] => acc
  | c :: cs => writeChunks (acc ++ c) cs

/-- Embeds `_get_image`: build the image URL from the configuration's base
URL (secure or plain), the verbatim size token and the image name; issue
the GET (`http` maps the URL to a status code and body); write the body to
`os.path.join(local_path, local_filename)` in 1024-byte chunks exactly
when the status code is 200, and otherwise do nothing.  The function
always returns a filesystem (Python `None` result): no fault is ever
reported. -/
def tmdb_get_image (conf : Configuration) (img_name : String) (size : String)
    (local_path : String) (local_filename : String) (secure : Bool)
    (http : String → Nat × List Nat) (fs : FS) : FS :=
  let url := get_image_url conf img_name size secure
  let r := http url
  if r.1 = 200 then
    FS.write fs (os_path_join local_path local_filename)
      (writeChunks [] (iterContent 1024 r.2))
  else fs

/-- Embeds `DailyTvPrograms.total_pages`: `self._get_value('total_pages')`. -/
def DailyTvPrograms.total_pages (results : Dict) : Option JVal :=
  Entity.get_value results "total_pages" none

/-- Python iteration over a JSON value: a list yields its elements, a
string its one-character substrings, a dict its keys; other values raise
(`none`). -/
def pyIter : JVal → Option (List JVal)
  | JVal.jlist xs => some xs
  | JVal.jstr s => some (s.toList.map (fun c => JVal.jstr (String.mk [c])))
  | JVal.jobj fields => some (fields.map (fun p => JVal.jstr p.1))
  | _ => none

/-- Subscription `v[k]` where a missing key or a non-object raises,
modelled as `none` (the `Option` twin of `jGet` for code whose whole
surrounding expression raises). -/
def pyGetItem (v : JVal) (k : String) : Option JVal :=
  match v with
  | JVal.jobj fields => fields.lookup k
  | _ => none

/-- Embeds `DailyTvPrograms.get_shows`:
`[(show['id'], show['name']) for show in self._aired_shows]` where
`_aired_shows = self._get_value('results', [])` (the `[]` default is
ignored by `_get_value`, so a missing `results` key stores `None` and the
comprehension raises, modelled as `none`). -/
def DailyTvPrograms.get_shows (results : Dict) : Option (List (JVal × JVal)) :=
  match Entity.get_value results "results" (some (JVal.jlist [])) with
  | none => none
  | some aired =>
    match pyIter aired with
    | none => none
    | some xs =>
      xs.mapM (fun x =>
        match pyGetItem x "id", pyGetItem x "name" with
        | some i, some n => some (i, n)
        | _, _ => none)

/-- Embeds `DailyTvProgramsCollection.get_shows`: extend an accumulator
with each page's shows in page order; a page whose `get_shows` raises
makes the whole call raise. -/
def DailyTvProgramsCollection.get_shows (pages : List Dict) :
    Option (List (JVal × JVal)) :=
  (pages.mapM DailyTvPrograms.get_shows).map List.flatten

/-- Embeds Python `range(a, b)` over integers: `[a, a+1, ..., b-1]`,
empty when `b ≤ a`. -/
def pyRange (a b : Int) : List Int :=
  List.map (fun k : Nat => a + (k : Int)) (List.range (b - a).toNat)

/-- The page-fetch loop of `airing_today`: for each index of the range,
first the defensive `if i > at.total_pages: break` guard, then one GET
with an explicit `page` parameter, appending the response page.  Returns
the fetch log (the `page` parameters used) and the collected pages. -/
def airingLoop (fetch : Option Int → Dict) (tp : Int) :
    List Int → List (Option Int) × List Dict
  | [] => ([], [])
  | i :: rest =>
    if i > tp then ([], [])
    else (some i :: (airingLoop fetch tp rest).1,
          fetch (some i) :: (airingLoop fetch tp rest).2)

/-- Embeds `TmDBTvSession.airing_today`.  `fetch` maps the `page` query
parameter (absent on the initial call) to the response body dict.  The
first page is fetched and wrapped, its `total_pages` drives
`range(2, total_pages + 1)` (a non-integer value there raises, modelled
as `.error`), and each later page is fetched with an explicit `page`
parameter.  Returns the fetch log and the collection's page list. -/
def TmDBTvSession.airing_today (fetch : Option Int → Dict) :
    Except String (List (Option Int) × List Dict) :=
  match DailyTvPrograms.total_pages (fetch none) with
  | some (JVal.jint tp) =>
    Except.ok (none :: (airingLoop fetch tp (pyRange 2 (tp + 1))).1,
               fetch none :: (airingLoop fetch tp (pyRange 2 (tp + 1))).2)
  | _ => Except.error "TypeError: range() argument"

/-- Claim C7: gender parsing is total on the integers, mapping 0 to
undefined, 1 to female, 2 to male, and every other integer (negative or
out of range) to unknown. -/
theorem Gender.parse_total (n : Int) :
    Gender.parse 0 = Gender.undefined ∧
    Gender.parse 1 = Gender.female ∧
    Gender.parse 2 = Gender.male ∧
    (n ≠ 0 → n ≠ 1 → n ≠ 2 → Gender.parse n = Gender.unknown) := by
  refine ⟨rfl, rfl, rfl, ?_⟩
  intro h0 h1 h2
  simp [Gender.parse, h0, h1, h2]

/-- Witness for C7 at the concrete out-of-range inputs -1 and 99. -/
theorem Gender.parse_total_witness :
    Gender.parse (-1) = Gender.unknown ∧ Gender.parse 99 = Gender.unknown :=
  ⟨(Gender.parse_total (-1)).2.2.2 (by decide) (by decide) (by decide),
   (Gender.parse_total 99).2.2.2 (by decide) (by decide) (by decide)⟩

/-- Claim C5: every movie synonym classifies as movie, every tv synonym
as tv, every string contained in neither joined synonym string as
unknown; the check is case-insensitive substring containment with movie
checked before tv (a string contained in both yields movie). -/
theorem parse_media_classification (s : String) :
    (s ∈ ["movie", "film", "cinema", "picture"] →
      tmdb_parse_media s = Media.movie) ∧
    (s ∈ ["tv", "television", "t.v.", "tube", "tele", "series", "show"] →
      tmdb_parse_media s = Media.tv) ∧
    (strContains MOVIE_SESSION_SYNONYM (pyLower s) = false →
      strContains TVSERIES_SESSION_SYNONYM (pyLower s) = false →
      tmdb_parse_media s = Media.unknown) ∧
    (strContains MOVIE_SESSION_SYNONYM (pyLower s) = true →
      tmdb_parse_media s = Media.movie) := by
  refine ⟨?_, ?_, ?_, ?_⟩
  · intro h
    simp at h
    rcases h with rfl | rfl | rfl | rfl <;> decide
  · intro h
    simp at h
    rcases h with rfl | rfl | rfl | rfl | rfl | rfl | rfl <;> decide
  · intro h1 h2
    simp [tmdb_parse_media, h1, h2]
  · intro h1
    simp [tmdb_parse_media, h1]

/-- Witness for C5 at "television" (a tv synonym) and "foo" (contained in
neither synonym string). -/
theorem parse_media_classification_witness :
    tmdb_parse_media "television" = Media.tv ∧
    tmdb_parse_media "foo" = Media.unknown :=
  ⟨(parse_media_classification "television").2.1 (by decide),
   (parse_media_classification "foo").2.2.1 (by decide) (by decide)⟩

/-- Claim C10: the empty string is a substring of every synonym string,
movie is checked first, so the classifier yields movie and the session
factory returns a movie session instead of raising. -/
theorem empty_string_classified_as_movie :
    tmdb_parse_media "" = Media.movie ∧
    ∀ (key : String) (lang : Option String),
      session_factory "" key lang = Except.ok (TmDBMovieSession.make key lang) := by
  refine ⟨by decide, ?_⟩
  intro key lang
  unfold session_factory
  rw [if_pos (by decide)]

/-- Claim C6: the session factory returns the tv-session subtype for every
tv synonym, the movie-session subtype for every movie synonym, and raises
`TmDBSessionException` for an unrecognized string such as "foo". -/
theorem session_factory_by_media (s key : String) (lang : Option String) :
    (s ∈ ["tv", "television", "t.v.", "tube", "tele", "series", "show"] →
      session_factory s key lang = Except.ok (TmDBTvSession.make key lang)) ∧
    (s ∈ ["movie", "film", "cinema", "picture"] →
      session_factory s key lang = Except.ok (TmDBMovieSession.make key lang)) ∧
    (TmDBTvSession.make key lang).media = Media.tv ∧
    (TmDBMovieSession.make key lang).media = Media.movie ∧
    session_factory "foo" key lang = Except.error "media foo unknown" := by
  refine ⟨?_, ?_, rfl, rfl, ?_⟩
  · intro h
    simp at h
    rcases h with rfl | rfl | rfl | rfl | rfl | rfl | rfl <;>
      (unfold session_factory; rw [if_neg (by decide), if_pos (by decide)])
  · intro h
    simp at h
    rcases h with rfl | rfl | rfl | rfl <;>
      (unfold session_factory; rw [if_pos (by decide)])
  · unfold session_factory
    rw [if_neg (by decide), if_neg (by decide)]
    rfl

/-- Witness for C6 at the synonyms "tv" and "film". -/
theorem session_factory_by_media_witness :
    session_factory "tv" "k" none = Except.ok (TmDBTvSession.make "k" none) ∧
    session_factory "film" "k" none = Except.ok (TmDBMovieSession.make "k" none) :=
  ⟨(session_factory_by_media "tv" "k" none).1 (by decide),
   (session_factory_by_media "film" "k" none).2.1 (by decide)⟩

/-- Claim C8: the endpoint builder wraps a non-tuple parameter into a
one-element tuple, substitutes template placeholders positionally under
the fixed API root (action "season" with (1234, 2) yields a URL containing
"tv/1234/season/2"), and yields the no-endpoint signal `None` for an
action missing from the endpoint table. -/
theorem get_endpoint_contract (a v : String) (p : PyParams) :
    get_endpoint a (PyParams.single v) = get_endpoint a (PyParams.tuple [v]) ∧
    get_endpoint "season" (PyParams.tuple ["1234", "2"]) =
      Except.ok (some "https://api.themoviedb.org/3/tv/1234/season/2") ∧
    strContains "https://api.themoviedb.org/3/tv/1234/season/2"
      "tv/1234/season/2" = true ∧
    (API_ENDPOINTS.lookup a = none → get_endpoint a p = Except.ok none) := by
  refine ⟨?_, by rfl, by decide, ?_⟩
  · unfold get_endpoint
    cases hl : API_ENDPOINTS.lookup a <;> simp only [hl]
  · intro h
    unfold get_endpoint
    rw [h]

/-- Witness for C8 at the unrecognized action "unknown_action". -/
theorem get_endpoint_contract_witness :
    get_endpoint "unknown_action" (PyParams.single "x") = Except.ok none :=
  (get_endpoint_contract "unknown_action" "x"
    (PyParams.single "x")).2.2.2 (by decide)

/-- Claim C2 (evaluation at the failing inputs): the wrapped-mapping
lookup ignores its documented default (so `name` on a mapping without the
key gives `None`, not the documented `''`), and the accessors
`TvShow.tot_seasons` and `DailyTvPrograms.total_results` raise
(`int(None)` TypeError, resp. a bare `KeyError`) on a mapping lacking the
underlying key, contradicting the totality the spec states. -/
theorem entity_accessors_can_raise :
    TvShow.tot_seasons [] =
      Except.error "TypeError: int() argument cannot be NoneType" ∧
    DailyTvPrograms.total_results [] = Except.error "KeyError: total_results" ∧
    Entity.get_value [] "name" (some (JVal.jstr "")) = none ∧
    Entity.name [] = none :=
  ⟨rfl, rfl, rfl, rfl⟩

/-- A well-formed configuration-endpoint response body. -/
def demoConfigResp : JVal :=
  JVal.jobj
    [("images", JVal.jobj
      [("base_url", JVal.jstr "http://image.tmdb.org/t/p/"),
       ("secure_base_url", JVal.jstr "https://image.tmdb.org/t/p/"),
       ("backdrop_sizes", JVal.jlist [JVal.jstr "w300", JVal.jstr "original"]),
       ("logo_sizes", JVal.jlist [JVal.jstr "w45"]),
       ("poster_sizes", JVal.jlist [JVal.jstr "w92", JVal.jstr "w342"]),
       ("profile_sizes", JVal.jlist [JVal.jstr "w45"]),
       ("still_sizes", JVal.jlist [JVal.jstr "w92"])]),
     ("change_keys", JVal.jlist [JVal.jstr "adult", JVal.jstr "air_date"])]

/-- Claim C4 (evaluation at the failing input): the `src/tmdbapi` version
of `Configuration.getconfig` never returns a populated configuration — it
passes the already-built URL back into the URL *builder* `get_endpoint`,
receives `None`, and raises `TypeError` on `resp['status']`, for every
session and without issuing any HTTP request.  The sibling
`src/tmdbRest` version populates every field from a successful response,
which is the behavior the claim describes. -/
theorem getconfig_never_succeeds :
    (∀ session : TmDBSession,
      Configuration.getconfig session =
        Except.error "TypeError: NoneType object is not subscriptable") ∧
    Configuration.getconfig_rest demoConfigResp = Except.ok
      { img_base_url := some "http://image.tmdb.org/t/p/",
        img_secure_base_url := some "https://image.tmdb.org/t/p/",
        img_backdrop_sizes := ["w300", "original"],
        img_logo_sizes := ["w45"],
        img_poster_sizes := ["w92", "w342"],
        img_profile_sizes := ["w45"],
        img_still_sizes := ["w92"],
        change_keys := ["adult", "air_date"] } := by
  exact ⟨fun _ => rfl, rfl⟩

/-- A populated configuration used for the image-size theorems. -/
def demoConf : Configuration :=
  { img_base_url := some "http://img.tmdb.test/",
    img_secure_base_url := some "https://img.tmdb.test/",
    img_poster_sizes := ["w92", "w154", "w185", "w342", "w500", "w780", "original"] }

/-- Claim C3 counterexample: the spec-side validator maps the unlisted
token "w999" to "original", but the code's URL construction uses "w999"
verbatim — no substitution to "original" happens anywhere in the image
path (a listed token such as "w342" is kept by both, which is the only
part of the claim the code satisfies). -/
theorem size_token_not_validated :
    spec_effective_size demoConf.img_poster_sizes (some "w999") = "original" ∧
    get_image_url demoConf "p.jpg" "w999" true = "https://img.tmdb.test/w999/p.jpg" ∧
    get_image_url demoConf "p.jpg" "w999" true ≠
      get_image_url demoConf "p.jpg"
        (spec_effective_size demoConf.img_poster_sizes (some "w999")) true ∧
    spec_effective_size demoConf.img_poster_sizes (some "w342") = "w342" := by
  refine ⟨by decide, by rfl, by decide, by decide⟩

/-- A configuration with the same base URLs as `demoConf` but empty size
lists. -/
def demoConfNoSizes : Configuration :=
  { img_base_url := some "http://img.tmdb.test/",
    img_secure_base_url := some "https://img.tmdb.test/" }

/-- Claim C3 as amended: no size validation occurs — the image URL uses
the caller's size token verbatim and depends only on the configuration's
base URLs, never on its size lists. -/
theorem get_image_url_uses_token_verbatim (c c2 : Configuration)
    (img size : String) (secure : Bool)
    (h1 : c.img_base_url = c2.img_base_url)
    (h2 : c.img_secure_base_url = c2.img_secure_base_url) :
    get_image_url c img size secure = get_image_url c2 img size secure ∧
    get_image_url c img size secure =
      pyStrOpt (if secure then c.img_secure_base_url else c.img_base_url)
        ++ size ++ "/" ++ img := by
  constructor
  · unfold get_image_url
    rw [h1, h2]
  · rfl

/-- Witness for the amended C3: two configurations differing in every size
list build the same URL for the unlisted token "w999". -/
theorem get_image_url_uses_token_verbatim_witness :
    get_image_url demoConf "p.jpg" "w999" true =
      get_image_url demoConfNoSizes "p.jpg" "w999" true :=
  (get_image_url_uses_token_verbatim demoConf demoConfNoSizes "p.jpg" "w999"
    true (by decide) (by decide)).1

/-- Unfolding the chunked write loop: the final file content is the
accumulator followed by all chunks in order. -/
theorem writeChunks_eq_append (cs : List (List Nat)) :
    ∀ acc, writeChunks acc cs = acc ++ cs.flatten := by
  induction cs with
  | nil => intro acc; simp [writeChunks]
  | cons c cs ih => intro acc; simp [writeChunks, ih]

/-- Reassembling the chunks of `iter_content` recovers the byte stream. -/
theorem iterContentAux_flatten (n : Nat) (hn : 0 < n) :
    ∀ fuel l, l.length ≤ fuel → (iterContentAux n fuel l).flatten = l := by
  intro fuel
  induction fuel with
  | zero =>
    intro l hl
    have : l = [] := List.eq_nil_of_length_eq_zero (Nat.le_zero.mp hl)
    subst this
    simp [iterContentAux]
  | succ fuel ih =>
    intro l hl
    cases l with
    | nil => simp [iterContentAux]
    | cons x xs =>
      simp only [iterContentAux, List.flatten_cons]
      rw [ih ((x :: xs).drop n) (by simp only [List.length_drop]; omega),
        List.take_append_drop]

/-- The streamed 1024-byte chunked write stores exactly the body. -/
theorem chunked_write_is_body (body : List Nat) :
    writeChunks [] (iterContent 1024 body) = body := by
  rw [writeChunks_eq_append, List.nil_append, iterContent,
    iterContentAux_flatten 1024 (by decide) body.length body (Nat.le_refl _)]

/-- Claim C9: `_get_image` writes `{dir}/{filename}` (created or
overwritten, streamed in 1024-byte chunks whose concatenation is the
response body) exactly when the response status is 200 (the success
status the code tests); on any other status the filesystem is untouched
and — the function being total with no error result — nothing is reported
to the caller. -/
theorem get_image_writes_iff_success (conf : Configuration)
    (img size dir fname : String) (secure : Bool)
    (http : String → Nat × List Nat) (fs : FS) :
    ((http (get_image_url conf img size secure)).1 = 200 →
      tmdb_get_image conf img size dir fname secure http fs =
        FS.write fs (os_path_join dir fname)
          ((http (get_image_url conf img size secure)).2) ∧
      FS.read (tmdb_get_image conf img size dir fname secure http fs)
          (os_path_join dir fname) =
        some ((http (get_image_url conf img size secure)).2)) ∧
    ((http (get_image_url conf img size secure)).1 ≠ 200 →
      tmdb_get_image conf img size dir fname secure http fs = fs) := by
  constructor
  · intro h
    have e : tmdb_get_image conf img size dir fname secure http fs =
        FS.write fs (os_path_join dir fname)
          ((http (get_image_url conf img size secure)).2) := by
      unfold tmdb_get_image
      rw [if_pos h, chunked_write_is_body]
    refine ⟨e, ?_⟩
    rw [e]
    simp [FS.read, FS.write, List.lookup]
  · intro h
    unfold tmdb_get_image
    rw [if_neg h]

/-- An HTTP layer answering success with a three-byte body. -/
def httpOK : String → Nat × List Nat := fun _ => (200, [7, 8, 9])

/-- An HTTP layer answering 404 (image unavailable). -/
def httpKO : String → Nat × List Nat := fun _ => (404, [])

/-- Witness for C9: on a 200 response the file appears with the body as
content; on a 404 response the (empty) filesystem stays empty. -/
theorem get_image_writes_iff_success_witness :
    tmdb_get_image demoConf "p.jpg" "w342" "tmp" "poster.jpg" true httpOK [] =
      [("tmp/poster.jpg", [7, 8, 9])] ∧
    tmdb_get_image demoConf "p.jpg" "w342" "tmp" "poster.jpg" true httpKO [] = [] := by
  constructor
  · have h := (get_image_writes_iff_success demoConf "p.jpg" "w342" "tmp"
      "poster.jpg" true httpOK []).1 (by rfl)
    rw [h.1]
    rfl
  · exact (get_image_writes_iff_success demoConf "p.jpg" "w342" "tmp"
      "poster.jpg" true httpKO []).2 (by decide)

/-- When every index of the list is within the reported page bound, the
defensive break of the page loop never fires: every index is fetched,
in order, with its explicit `page` parameter. -/
theorem airingLoop_no_break (fetch : Option Int → Dict) (tp : Int) :
    ∀ l : List Int, (∀ i ∈ l, i ≤ tp) →
      airingLoop fetch tp l =
        (l.map (fun i => some i), l.map (fun i => fetch (some i))) := by
  intro l
  induction l with
  | nil => intro _; rfl
  | cons i rest ih =>
    intro h
    have hi : i ≤ tp := h i (List.mem_cons_self i rest)
    have hrest : ∀ j ∈ rest, j ≤ tp := fun j hj => h j (List.mem_cons_of_mem i hj)
    simp only [airingLoop, List.map_cons]
    rw [if_neg (by omega), ih hrest]

/-- Every member of `pyRange a b` is at most `b - 1`. -/
theorem pyRange_le (a b i : Int) (h : i ∈ pyRange a b) : i ≤ b - 1 := by
  simp [pyRange] at h
  obtain ⟨k, hk, rfl⟩ := h
  omega

/-- The range `pyRange a b` has `b - a` elements (none when `b ≤ a`). -/
theorem pyRange_length (a b : Int) : (pyRange a b).length = (b - a).toNat := by
  rw [pyRange, List.length_map, List.length_range]

/-- Claim C1: when the first airing-today page reports `total_pages = N ≥ 1`,
`airing_today` performs exactly N fetches — the initial one plus one per
page index 2..N in ascending order, each with an explicit `page`
parameter — the collection holds the N responses in that ascending page
order, and the collection's `get_shows` is the in-order concatenation of
the pages' (id, name) pairs (for N = 1 the range is empty, so exactly one
fetch occurs and the loop body never runs). -/
theorem airing_today_pagination (fetch : Option Int → Dict) (N : Nat)
    (hN : 1 ≤ N)
    (htp : DailyTvPrograms.total_pages (fetch none) = some (JVal.jint (N : Int))) :
    TmDBTvSession.airing_today fetch =
      Except.ok (none :: (pyRange 2 ((N : Int) + 1)).map (fun i => some i),
                 fetch none :: (pyRange 2 ((N : Int) + 1)).map (fun i => fetch (some i))) ∧
    (none :: (pyRange 2 ((N : Int) + 1)).map (fun i => some i)).length = N ∧
    (∀ shows : List (List (JVal × JVal)),
      (fetch none :: (pyRange 2 ((N : Int) + 1)).map
          (fun i => fetch (some i))).mapM DailyTvPrograms.get_shows = some shows →
      DailyTvProgramsCollection.get_shows
          (fetch none :: (pyRange 2 ((N : Int) + 1)).map (fun i => fetch (some i))) =
        some shows.flatten) := by
  have hloop := airingLoop_no_break fetch (N : Int) (pyRange 2 ((N : Int) + 1))
    (fun i hi => by have := pyRange_le 2 ((N : Int) + 1) i hi; omega)
  refine ⟨?_, ?_, ?_⟩
  · simp only [TmDBTvSession.airing_today, htp]
    rw [hloop]
  · rw [List.length_cons, List.length_map, pyRange_length]
    omega
  · intro shows h
    unfold DailyTvProgramsCollection.get_shows
    rw [h]
    rfl

/-- A two-page airing-today server: the initial request reports two total
pages with one show per page; page 2 is requested explicitly. -/
def demoFetch : Option Int → Dict
  | none => [("page", JVal.jint 1), ("total_pages", JVal.jint 2),
             ("results", JVal.jlist
               [JVal.jobj [("id", JVal.jint 10), ("name", JVal.jstr "A")]])]
  | some 2 => [("page", JVal.jint 2), ("total_pages", JVal.jint 2),
               ("results", JVal.jlist
                 [JVal.jobj [("id", JVal.jint 20), ("name", JVal.jstr "B")]])]
  | some _ => []

/-- Witness for C1 on the two-page server: two fetches in ascending order,
two pages collected, and the concatenated show list. -/
theorem airing_today_pagination_witness :
    TmDBTvSession.airing_today demoFetch =
      Except.ok ([none, some 2], [demoFetch none, demoFetch (some 2)]) ∧
    DailyTvProgramsCollection.get_shows [demoFetch none, demoFetch (some 2)] =
      some [(JVal.jint 10, JVal.jstr "A"), (JVal.jint 20, JVal.jstr "B")] := by
  have h := airing_today_pagination demoFetch 2 (by decide) (by rfl)
  have e : pyRange 2 (((2 : Nat) : Int) + 1) = [(2 : Int)] := by decide
  constructor
  · have h1 := h.1
    rw [e] at h1
    simpa using h1
  · have h3 := h.2.2
    rw [e] at h3
    have h4 := h3 [[(JVal.jint 10, JVal.jstr "A")], [(JVal.jint 20, JVal.jstr "B")]]
      (by rfl)
    simpa using h4
